import Mathlib

/-!
Verification of the database-backed session layer of SmartHire
(`server/app/__init__.py`: `DatabaseSession`, `DatabaseSessionInterface`,
and the CORS decoration in `create_app`), as a shallow embedding.

Modelling conventions:
* Absolute times and durations are integer seconds; `datetime.utcnow()`
  becomes an explicit `now : Int` parameter.
* Python's `datetime` objects are modelled as `PyDatetime`: a time value
  plus an awareness flag.  Comparing an offset-aware with an offset-naive
  datetime raises `TypeError` in Python, which the model surfaces as
  `PyError.typeError`.
* `datetime.fromisoformat(s.replace('Z', '+00:00'))` on a stored string
  expiry is a standard-library call; a string expiry is therefore
  represented by its parse outcome (`none` when `ValueError` is raised,
  `some d` when it parses, with `d.aware = true` exactly when the text
  carries a UTC offset such as a trailing `Z`).
* `json.dumps` / `json.loads` from the standard library are modelled by
  outcome: a serialized blob is either the faithful encoding of a
  string-keyed mapping (`Serialized.jsonObj`) or undecodable text
  (`Serialized.corrupt`, on which `loads` raises a decode error).
* The `session` table (its SQLAlchemy model lives in `app/models.py`,
  declared in the spec, Storage schema: `session_id (unique key),
  data (text/blob), expiry (timestamp)`) is a list of `SessionRecord`;
  `fetchone` on `SELECT ... WHERE session_id = :sid` is the first match.
* Straight-line Python with possible exceptions becomes sequencing whose
  result carries an optional error; the single `db.session.commit()` is
  the point where the transaction's writes become durable, so a failed
  commit leaves the durable store unchanged.
-/

/-- A JSON value stored in the session mapping. -/
inductive JsonVal where
  | num (n : Int)
  | str (s : String)
  | bool (b : Bool)
  | null
deriving DecidableEq

/-- Errors raised by the Python runtime that the session code does not catch. -/
inductive PyError where
  | typeError
deriving DecidableEq

/-- Error raised by `json.loads` on undecodable text (`json.JSONDecodeError`). -/
inductive JsonErr where
  | decodeError
deriving DecidableEq

/-- Database failure during persistence (a failing `db.session.commit()`). -/
inductive DbErr where
  | commitFailed
deriving DecidableEq

/-- A Python `datetime`: a time value in seconds and an offset-awareness flag. -/
structure PyDatetime where
  t : Int
  aware : Bool
deriving DecidableEq

/-- Python's `<` on datetimes: comparable only when both are naive or both
aware; a mixed comparison raises `TypeError`. -/
def pyLt (a b : PyDatetime) : Except PyError Bool :=
  if a.aware = b.aware then .ok (decide (a.t < b.t)) else .error .typeError

/-- A serialized session payload, modelled by its `json` outcome:
`jsonObj m` is the `json.dumps` encoding of the string-keyed mapping `m`
(so `loads` recovers `m`); `corrupt` is text on which `json.loads` raises. -/
inductive Serialized where
  | jsonObj (m : List (String × JsonVal))
  | corrupt
deriving DecidableEq

/-- Python's `json.dumps(dict(session))` for a string-keyed mapping. -/
def dumps (m : List (String × JsonVal)) : Serialized :=
  .jsonObj m

/-- Python's `json.loads` on a stored payload. -/
def loads : Serialized → Except JsonErr (List (String × JsonVal))
  | .jsonObj m => .ok m
  | .corrupt => .error .decodeError

/-- The `expiry` column value as the database driver hands it back:
either a `datetime` object, or a string represented by the outcome of
`datetime.fromisoformat(s.replace('Z', '+00:00'))` (`none`: unparsable,
raising `ValueError`; `some d` with `d.aware = true` when the text carried
an explicit UTC offset such as a trailing `Z`). -/
inductive StoredExpiry where
  | dt (d : PyDatetime)
  | str (parse : Option PyDatetime)
deriving DecidableEq

/-- One row of the `session` table. -/
structure SessionRecord where
  session_id : String
  data : Serialized
  expiry : StoredExpiry
deriving DecidableEq

/-- The in-memory session object (`DatabaseSession`): a mapping plus
identifier, permanence flag and dirty flag.  The `CallbackDict` update
hook sets `modified := true` on every mutation; the constructor leaves
`modified = false`. -/
structure DatabaseSession where
  data : List (String × JsonVal)
  sid : String
  permanent : Bool
  modified : Bool
deriving DecidableEq

/-- Static configuration of `DatabaseSessionInterface`, resolved in its
`__init__` from `app.config`.  In the deployed app `permanent = true`
(`Config.SESSION_PERMANENT`), `cookie_name = "session"`,
`max_age = 2678400` (the `timedelta(days=31)` default, in seconds) and
`refresh_each_request = true` (Flask's `SESSION_REFRESH_EACH_REQUEST`
default, which the app never overrides). -/
structure SessionIface where
  permanent : Bool
  cookie_name : String
  max_age : Int
  refresh_each_request : Bool
  cookie_path : String
  cookie_domain : Option String
  cookie_secure : Bool
  cookie_httponly : Bool
  cookie_samesite : String
deriving DecidableEq

/-- One `response.set_cookie(...)` call with its attributes. -/
structure CookieSet where
  name : String
  value : String
  max_age : Option Int
  expires : Option PyDatetime
  path : String
  domain : Option String
  secure : Bool
  httponly : Bool
  samesite : String
deriving DecidableEq

/-- The outbound response: headers added by decoration and cookies set. -/
structure Response where
  headers : List (String × String)
  cookies : List CookieSet
deriving DecidableEq

/-- The `fetchone` of `SELECT * FROM session WHERE session_id = :sid`:
the first row whose `session_id` matches exactly. -/
def fetchone (store : List SessionRecord) (sid : String) : Option SessionRecord :=
  store.find? (fun r => decide (r.session_id = sid))

/-- The rows of the store carrying a given `session_id`. -/
def rowsFor (store : List SessionRecord) (sid : String) : List SessionRecord :=
  store.filter (fun r => decide (r.session_id = sid))

/-- The store keeps at most one row per `session_id`. -/
def atMostOne (store : List SessionRecord) : Prop :=
  ∀ sid, (rowsFor store sid).length ≤ 1

/-- Hex digit characters used by `uuid.UUID.__str__`. -/
def hexDigit (n : Nat) : Char :=
  if n < 10 then Char.ofNat (48 + n) else Char.ofNat (87 + n)

/-- Fixed-width big-endian hex rendering, as a character list. -/
def hexChars : Nat → Nat → List Char
  | 0, _ => []
  | d + 1, n => hexChars d (n / 16) ++ [hexDigit (n % 16)]

/-- Fixed-width big-endian hex rendering of `n` using `d` digits. -/
def hexStr (d n : Nat) : String :=
  String.mk (hexChars d n)

/-- The 128-bit integer of `uuid.uuid4()` built from 128 random bits `r`:
the version field (bits 76..79) is forced to `4` and the variant field
(bits 62..63) to `0b10`. -/
def uuid4_int (r : Nat) : Nat :=
  let b := r % 2 ^ 128
  let b1 := b / 2 ^ 80 * 2 ^ 80 + 4 * 2 ^ 76 + b % 2 ^ 76
  b1 / 2 ^ 64 * 2 ^ 64 + 2 * 2 ^ 62 + b1 % 2 ^ 62

/-- The source's `_generate_sid`: `str(uuid.uuid4())`, the
canonical 8-4-4-4-12 hex rendering, from random input `r`. -/
def generate_sid (r : Nat) : String :=
  let n := uuid4_int r
  hexStr 8 (n / 2 ^ 96) ++ "-" ++ hexStr 4 (n / 2 ^ 80 % 2 ^ 16) ++ "-" ++
    hexStr 4 (n / 2 ^ 64 % 2 ^ 16) ++ "-" ++ hexStr 4 (n / 2 ^ 48 % 2 ^ 16) ++ "-" ++
    hexStr 12 (n % 2 ^ 48)

/-- A fresh empty session tagged with `sid`, as every degradation path of
`open_session` builds it: `DatabaseSession(sid=sid, permanent=self.permanent)`. -/
def freshSession (iface : SessionIface) (sid : String) : DatabaseSession :=
  ⟨[], sid, iface.permanent, false⟩

/-- The source's `open_session`.  Here `cookieSid` is
`request.cookies.get(self.cookie_name)` (`none` when the cookie is absent;
Python's `if not sid` also treats the empty string as absent), `now` is
`datetime.utcnow()`, and `r` feeds `_generate_sid`.  An uncaught Python
exception is an `Except.error`. -/
def open_session (iface : SessionIface) (store : List SessionRecord)
    (cookieSid : Option String) (now : Int) (r : Nat) :
    Except PyError DatabaseSession :=
  let sid := cookieSid.getD ""
  if sid = "" then
    .ok (freshSession iface (generate_sid r))
  else
    match fetchone store sid with
    | none => .ok (freshSession iface sid)
    | some record =>
      let parsed : Option PyDatetime :=
        match record.expiry with
        | .dt d => some d
        | .str p => p
      match parsed with
      | none => .ok (freshSession iface sid)
      | some expiry =>
        match pyLt expiry ⟨now, false⟩ with
        | .error e => .error e
        | .ok true => .ok (freshSession iface sid)
        | .ok false =>
          match loads record.data with
          | .error _ => .ok (freshSession iface sid)
          | .ok m => .ok ⟨m, sid, iface.permanent, false⟩

/-- Flask's `SessionInterface.should_set_cookie` (library code the source
calls): `session.modified or (session.permanent and
app.config["SESSION_REFRESH_EACH_REQUEST"])`. -/
def should_set_cookie (iface : SessionIface) (s : DatabaseSession) : Bool :=
  s.modified || (s.permanent && iface.refresh_each_request)

/-- The expiry `save_session` computes: `utcnow() + self.max_age` for a
permanent session, `utcnow() + timedelta(days=1)` otherwise. -/
def saveExpiry (iface : SessionIface) (s : DatabaseSession) (now : Int) : Int :=
  if s.permanent then now + iface.max_age else now + 86400

/-- The `response.set_cookie(...)` call of `save_session`: value is the
identifier; `max_age`/`expires` only for permanent sessions; the other
attributes come from static configuration. -/
def sessionCookie (iface : SessionIface) (s : DatabaseSession) (expiry : Int) : CookieSet :=
  ⟨iface.cookie_name, s.sid,
    if s.permanent then some iface.max_age else none,
    if s.permanent then some ⟨expiry, false⟩ else none,
    iface.cookie_path, iface.cookie_domain, iface.cookie_secure,
    iface.cookie_httponly, iface.cookie_samesite⟩

/-- Result of `save_session`: the durable store, the response, and the
uncaught database error, if any. -/
structure SaveResult where
  store : List SessionRecord
  response : Response
  error : Option DbErr
deriving DecidableEq

/-- The source's `save_session`.  Skips everything when
`should_set_cookie` declines; otherwise computes the expiry, serializes the
mapping, upserts by `session_id` (`UPDATE` every matching row if a
`SELECT id` finds one, `INSERT` otherwise), commits, and only then sets
the cookie.  `commitOk = false` models `db.session.commit()` raising: the
transaction's writes never become durable, the error propagates, and the
`set_cookie` line is never reached. -/
def save_session (iface : SessionIface) (store : List SessionRecord)
    (s : DatabaseSession) (resp : Response) (now : Int) (commitOk : Bool) :
    SaveResult :=
  if should_set_cookie iface s then
    let expiry := saveExpiry iface s now
    let session_data := dumps s.data
    let newStore :=
      if (fetchone store s.sid).isSome then
        store.map fun rec =>
          if rec.session_id = s.sid then
            { rec with data := session_data, expiry := .dt ⟨expiry, false⟩ }
          else rec
      else
        store ++ [⟨s.sid, session_data, .dt ⟨expiry, false⟩⟩]
    if commitOk then
      ⟨newStore, { resp with cookies := resp.cookies ++ [sessionCookie iface s expiry] }, none⟩
    else
      ⟨store, resp, some .commitFailed⟩
  else
    ⟨store, resp, none⟩

/-- The fixed CORS allow-list of the authoritative `create_app`. -/
def allowed_origins : List String :=
  ["http://localhost:5173", "http://127.0.0.1:5173",
   "https://smart-hire-beta.vercel.app", "https://smart-hire-beta.vercel.app/"]

/-- The five headers both CORS hooks add for an allow-listed origin. -/
def corsHeaders (origin : String) : List (String × String) :=
  [("Access-Control-Allow-Origin", origin),
   ("Access-Control-Allow-Headers", "Content-Type,Authorization,X-Requested-With,Accept"),
   ("Access-Control-Allow-Methods", "GET,POST,PUT,DELETE,OPTIONS,PATCH"),
   ("Access-Control-Allow-Credentials", "true"),
   ("Access-Control-Max-Age", "86400")]

/-- Whether the response already carries a header with this name
(`'...' in response.headers`). -/
def hasHeader (resp : Response) (name : String) : Bool :=
  resp.headers.any fun h => decide (h.1 = name)

/-- The `after_request` hook of `create_app`: decorate with the five CORS
headers when `Access-Control-Allow-Origin` is not already present and the
request's `Origin` is allow-listed. -/
def after_request (originHeader : Option String) (resp : Response) : Response :=
  if hasHeader resp "Access-Control-Allow-Origin" then resp
  else
    match originHeader with
    | none => resp
    | some origin =>
      if origin ∈ allowed_origins then
        { resp with headers := resp.headers ++ corsHeaders origin }
      else resp

/-- The `handle_options` view: starting from
`app.make_default_options_response()` (here `resp`), add the five CORS
headers when the request's `Origin` is allow-listed. -/
def handle_options (originHeader : Option String) (resp : Response) : Response :=
  match originHeader with
  | none => resp
  | some origin =>
    if origin ∈ allowed_origins then
      { resp with headers := resp.headers ++ corsHeaders origin }
    else resp

/-- The interface configuration of the deployed app: `SESSION_PERMANENT =
True`, default cookie name, `timedelta(days=31)` max age, Flask's default
refresh policy, and the production cookie attributes set in `create_app`. -/
def deployedIface : SessionIface :=
  ⟨true, "session", 2678400, true, "/", none, true, true, "None"⟩

/-! ## Helper lemmas -/

/-- A row-rewriting function that preserves `session_id` commutes with
`find?` by `session_id`. -/
theorem find?_map_session (f : SessionRecord → SessionRecord)
    (hf : ∀ a, (f a).session_id = a.session_id) (sid : String) :
    ∀ l : List SessionRecord,
      (l.map f).find? (fun r => decide (r.session_id = sid))
        = (l.find? (fun r => decide (r.session_id = sid))).map f
  | [] => rfl
  | a :: l => by
    simp only [List.map_cons, List.find?, hf a]
    by_cases hc : a.session_id = sid
    · simp [hc]
    · simp [hc, find?_map_session f hf sid l]

/-- A row-rewriting function that preserves `session_id` commutes with
`rowsFor`. -/
theorem rowsFor_map_session (f : SessionRecord → SessionRecord)
    (hf : ∀ a, (f a).session_id = a.session_id) (sid : String) :
    ∀ l : List SessionRecord, rowsFor (l.map f) sid = (rowsFor l sid).map f
  | [] => rfl
  | a :: l => by
    simp only [rowsFor, List.map_cons, List.filter_cons, hf a]
    by_cases hc : a.session_id = sid
    · simpa [hc] using rowsFor_map_session f hf sid l
    · simpa [hc] using rowsFor_map_session f hf sid l

/-- A store in which `fetchone` misses has no row for that identifier. -/
theorem rowsFor_eq_nil_of_fetchone_none {store : List SessionRecord} {sid : String}
    (h : fetchone store sid = none) : rowsFor store sid = [] := by
  refine List.filter_eq_nil_iff.mpr ?_
  intro r hr
  exact List.find?_eq_none.mp h r hr

/-- After a persisting save, the first row fetched for the session's
identifier holds exactly the session's serialized data and the computed
expiry, stored together. -/
theorem fetchone_save (iface : SessionIface) (store : List SessionRecord)
    (s : DatabaseSession) (resp : Response) (now : Int)
    (h : should_set_cookie iface s = true) :
    fetchone (save_session iface store s resp now true).store s.sid
      = some ⟨s.sid, dumps s.data, .dt ⟨saveExpiry iface s now, false⟩⟩ := by
  simp only [save_session, h, if_true]
  cases hex : fetchone store s.sid with
  | none =>
    simp only [hex, Option.isSome_none, Bool.false_eq_true, if_false]
    unfold fetchone at hex ⊢
    rw [List.find?_append, hex]
    simp [List.find?]
  | some r0 =>
    have hid : r0.session_id = s.sid := by
      have := List.find?_some hex
      exact of_decide_eq_true this
    simp only [hex, Option.isSome_some, if_true]
    unfold fetchone
    rw [find?_map_session _ (fun a => by by_cases hc : a.session_id = s.sid <;> simp [hc]) s.sid]
    unfold fetchone at hex
    rw [hex]
    simp [hid]

/-- Resolving a present, unexpired, decodable record yields its mapping
with `modified = false`. -/
theorem open_session_found (iface : SessionIface) (store : List SessionRecord)
    (sid : String) (m : List (String × JsonVal)) (exp now : Int) (r : Nat)
    (hsid : sid ≠ "")
    (hfind : fetchone store sid = some ⟨sid, dumps m, .dt ⟨exp, false⟩⟩)
    (hvalid : now ≤ exp) :
    open_session iface store (some sid) now r = .ok ⟨m, sid, iface.permanent, false⟩ := by
  have hlt : decide (exp < now) = false := decide_eq_false (not_lt.mpr hvalid)
  simp only [open_session, Option.getD_some]
  rw [if_neg hsid, hfind]
  simp [pyLt, hlt, loads, dumps]

/-- Invariant preservation: `save_session` never duplicates a row for any
identifier. -/
theorem atMostOne_save (iface : SessionIface) (store : List SessionRecord)
    (s : DatabaseSession) (resp : Response) (now : Int) (commitOk : Bool)
    (hinv : atMostOne store) :
    atMostOne (save_session iface store s resp now commitOk).store := by
  intro sid'
  cases hssc : should_set_cookie iface s with
  | false => simpa [save_session, hssc] using hinv sid'
  | true =>
    cases commitOk with
    | false => simpa [save_session, hssc] using hinv sid'
    | true =>
      simp only [save_session, hssc, if_true]
      cases hex : fetchone store s.sid with
      | none =>
        simp only [hex, Option.isSome_none, Bool.false_eq_true, if_false]
        rw [show rowsFor (store ++ [⟨s.sid, dumps s.data, .dt ⟨saveExpiry iface s now, false⟩⟩]) sid'
              = rowsFor store sid' ++ rowsFor [⟨s.sid, dumps s.data, .dt ⟨saveExpiry iface s now, false⟩⟩] sid'
            from List.filter_append _ _]
        by_cases hc : s.sid = sid'
        · rw [rowsFor_eq_nil_of_fetchone_none (hc ▸ hex)]
          simp [rowsFor, List.filter, hc]
        · have : rowsFor [(⟨s.sid, dumps s.data, .dt ⟨saveExpiry iface s now, false⟩⟩ : SessionRecord)] sid' = [] := by
            simp [rowsFor, List.filter, hc]
          rw [this]
          simpa using hinv sid'
      | some r0 =>
        simp only [hex, Option.isSome_some, if_true]
        rw [rowsFor_map_session _ (fun a => by by_cases hc : a.session_id = s.sid <;> simp [hc]) sid']
        simpa using hinv sid'

/-- After a persisting save on a duplicate-free store, the rows for the
session's identifier are exactly one row carrying the new data and expiry. -/
theorem rowsFor_save (iface : SessionIface) (store : List SessionRecord)
    (s : DatabaseSession) (resp : Response) (now : Int)
    (hinv : atMostOne store) (h : should_set_cookie iface s = true) :
    rowsFor (save_session iface store s resp now true).store s.sid
      = [⟨s.sid, dumps s.data, .dt ⟨saveExpiry iface s now, false⟩⟩] := by
  simp only [save_session, h, if_true]
  cases hex : fetchone store s.sid with
  | none =>
    simp only [hex, Option.isSome_none, Bool.false_eq_true, if_false]
    rw [show rowsFor (store ++ [⟨s.sid, dumps s.data, .dt ⟨saveExpiry iface s now, false⟩⟩]) s.sid
          = rowsFor store s.sid ++ rowsFor [⟨s.sid, dumps s.data, .dt ⟨saveExpiry iface s now, false⟩⟩] s.sid
        from List.filter_append _ _]
    rw [rowsFor_eq_nil_of_fetchone_none hex]
    simp [rowsFor, List.filter]
  | some r0 =>
    have hex' : store.find? (fun r => decide (r.session_id = s.sid)) = some r0 := hex
    have hmem : r0 ∈ rowsFor store s.sid := by
      unfold rowsFor
      have hpr0 := @List.find?_some SessionRecord (fun r => decide (r.session_id = s.sid)) r0 store hex'
      exact List.mem_filter.mpr ⟨List.mem_of_find?_eq_some hex', hpr0⟩
    have hlen : (rowsFor store s.sid).length = 1 := by
      refine le_antisymm (hinv s.sid) ?_
      exact List.length_pos.mpr (List.ne_nil_of_mem hmem)
    obtain ⟨x, hx⟩ := List.length_eq_one.mp hlen
    have hxid : x.session_id = s.sid := by
      have hxmem : x ∈ List.filter (fun r => decide (r.session_id = s.sid)) store := by
        rw [show List.filter (fun r => decide (r.session_id = s.sid)) store = rowsFor store s.sid from rfl, hx]
        exact List.mem_singleton_self x
      have hpx := @List.of_mem_filter SessionRecord (fun r => decide (r.session_id = s.sid)) x store hxmem
      exact of_decide_eq_true hpx
    simp only [hex, Option.isSome_some, if_true]
    rw [rowsFor_map_session _ (fun a => by by_cases hc : a.session_id = s.sid <;> simp [hc]) s.sid]
    rw [hx]
    simp [hxid]

/-- The rendering `hexChars d n` has exactly `d` characters. -/
theorem hexChars_length (d : Nat) : ∀ n, (hexChars d n).length = d := by
  induction d with
  | zero => intro n; rfl
  | succ d ih =>
    intro n
    simp [hexChars, List.length_append, ih]

/-- A generated identifier always has the canonical 36-character shape. -/
theorem generate_sid_length (r : Nat) : (generate_sid r).length = 36 := by
  have hdash : ("-" : String).length = 1 := rfl
  simp [generate_sid, hexStr, String.length_append, String.length_mk, hexChars_length, hdash]

/-- A generated identifier is never empty. -/
theorem generate_sid_ne_empty (r : Nat) : generate_sid r ≠ "" := by
  intro hcon
  have hlen := generate_sid_length r
  rw [hcon] at hlen
  simp at hlen

/-! ## Claims -/

/-- Claim C1 (code bug): session resolution is claimed never to raise, yet a
stored record whose `expiry` column is an ISO string with an explicit UTC
offset (for example a trailing `Z`, anticipated by the code's
`replace('Z', '+00:00')`) parses to an offset-aware datetime, and the
comparison `expiry < datetime.utcnow()` against a naive datetime raises an
uncaught `TypeError` instead of degrading to a fresh session. -/
theorem open_session_aware_expiry_raises :
    open_session deployedIface
      [⟨"s", dumps [("a", JsonVal.num 1)], .str (some ⟨1893456000, true⟩)⟩]
      (some "s") 1000 0 = .error PyError.typeError := by
  rfl

/-- Claim C2, counterexample: a session with `modified = false` whose record
already exists is nevertheless written back and a cookie is set, because the
session is permanent and Flask refreshes permanent sessions on every request
(`SESSION_PERMANENT = True` in the deployed configuration). -/
theorem save_session_unmodified_writes_counterexample :
    ((save_session deployedIface [⟨"abc", dumps [("x", JsonVal.num 0)], .dt ⟨0, false⟩⟩]
        ⟨[], "abc", true, false⟩ ⟨[], []⟩ 100 true).response.cookies ≠ []) ∧
    ((save_session deployedIface [⟨"abc", dumps [("x", JsonVal.num 0)], .dt ⟨0, false⟩⟩]
        ⟨[], "abc", true, false⟩ ⟨[], []⟩ 100 true).store
      ≠ [⟨"abc", dumps [("x", JsonVal.num 0)], .dt ⟨0, false⟩⟩]) := by
  decide

/-- Claim C2, amended: for every session with `modified = false` that is
moreover not due a permanent-session refresh (not permanent, or refreshing
disabled), `save_session` performs no database write and adds no cookie
header, whether or not a record exists. -/
theorem save_session_noop_when_policy_declines (iface : SessionIface)
    (store : List SessionRecord) (s : DatabaseSession) (resp : Response)
    (now : Int) (commitOk : Bool)
    (hmod : s.modified = false)
    (hperm : s.permanent = false ∨ iface.refresh_each_request = false) :
    save_session iface store s resp now commitOk = ⟨store, resp, none⟩ := by
  have h : should_set_cookie iface s = false := by
    rcases hperm with hp | hp <;> simp [should_set_cookie, hmod, hp]
  simp [save_session, h]

/-- Claim C2, witness: a concrete non-permanent unmodified session with an
existing record is saved without any store or response change. -/
theorem save_session_noop_when_policy_declines_witness :
    save_session deployedIface [⟨"abc", dumps [], .dt ⟨0, false⟩⟩]
      ⟨[], "abc", false, false⟩ ⟨[], []⟩ 100 true
      = ⟨[⟨"abc", dumps [], .dt ⟨0, false⟩⟩], ⟨[], []⟩, none⟩ :=
  save_session_noop_when_policy_declines deployedIface
    [⟨"abc", dumps [], .dt ⟨0, false⟩⟩] ⟨[], "abc", false, false⟩ ⟨[], []⟩ 100 true
    rfl (Or.inl rfl)

/-- Claim C4, counterexample: a record whose expiry string parses to an
offset-aware timestamp strictly in the past does not resolve to a fresh
session; the naive-versus-aware comparison raises `TypeError` instead. -/
theorem open_session_expired_aware_counterexample :
    open_session deployedIface
      [⟨"sidX", dumps [("a", JsonVal.num 1)], .str (some ⟨0, true⟩)⟩]
      (some "sidX") 1000 0 = .error PyError.typeError := by
  rfl

/-- Claim C4, amended: for every stored record whose expiry is a naive
timestamp strictly in the past — held directly as a datetime or as a string
parsing to a naive datetime — `open_session` resolves to a fresh empty
session, never returning the expired record's data. -/
theorem open_session_expired_fresh (iface : SessionIface)
    (store : List SessionRecord) (sid : String) (rec : SessionRecord)
    (now : Int) (r : Nat) (t : Int)
    (hsid : sid ≠ "")
    (hfind : fetchone store sid = some rec)
    (hexp : rec.expiry = .dt ⟨t, false⟩ ∨ rec.expiry = .str (some ⟨t, false⟩))
    (hpast : t < now) :
    open_session iface store (some sid) now r = .ok (freshSession iface sid) := by
  have hlt : decide (t < now) = true := decide_eq_true hpast
  simp only [open_session, Option.getD_some]
  rw [if_neg hsid, hfind]
  rcases hexp with h | h <;> simp [pyLt, hlt, h]

/-- Claim C4, witness: a record expired by exactly one second resolves to a
fresh empty session. -/
theorem open_session_expired_fresh_witness :
    open_session deployedIface
      [⟨"sidX", dumps [("a", JsonVal.num 1)], .dt ⟨999, false⟩⟩]
      (some "sidX") 1000 0 = .ok (freshSession deployedIface "sidX") :=
  open_session_expired_fresh deployedIface
    [⟨"sidX", dumps [("a", JsonVal.num 1)], .dt ⟨999, false⟩⟩] "sidX"
    ⟨"sidX", dumps [("a", JsonVal.num 1)], .dt ⟨999, false⟩⟩ 1000 0 999
    (by decide) rfl (Or.inl rfl) (by decide)

/-- Claim C3: saving a session whose mapping is `{"a": 1}` and resolving the
same identifier before the computed expiry yields a session whose mapping is
again `{"a": 1}`. -/
theorem save_open_roundtrip (iface : SessionIface) (store : List SessionRecord)
    (s : DatabaseSession) (resp : Response) (now1 now2 : Int) (r : Nat)
    (hdata : s.data = [("a", JsonVal.num 1)])
    (hset : should_set_cookie iface s = true)
    (hsid : s.sid ≠ "")
    (hbefore : now2 ≤ saveExpiry iface s now1) :
    open_session iface (save_session iface store s resp now1 true).store
      (some s.sid) now2 r
      = .ok ⟨[("a", JsonVal.num 1)], s.sid, iface.permanent, false⟩ := by
  have hf := fetchone_save iface store s resp now1 hset
  rw [hdata] at hf
  exact open_session_found iface _ s.sid [("a", JsonVal.num 1)]
    (saveExpiry iface s now1) now2 r hsid hf hbefore

/-- Claim C3, witness: a concrete round trip through an empty store. -/
theorem save_open_roundtrip_witness :
    open_session deployedIface
      (save_session deployedIface [] ⟨[("a", JsonVal.num 1)], "abc", true, true⟩
        ⟨[], []⟩ 0 true).store
      (some "abc") 5 0
      = .ok ⟨[("a", JsonVal.num 1)], "abc", deployedIface.permanent, false⟩ :=
  save_open_roundtrip deployedIface [] ⟨[("a", JsonVal.num 1)], "abc", true, true⟩
    ⟨[], []⟩ 0 5 0 rfl rfl (by decide) (by decide)

/-- Claim C6: the expiry stored by a persisting save is the current time
plus the configured long-lived duration (`SESSION_MAX_AGE`, default 31
days) for a permanent session, and the current time plus the short one-day
default otherwise — written together with the data. -/
theorem save_session_expiry_policy (iface : SessionIface)
    (store : List SessionRecord) (s : DatabaseSession) (resp : Response)
    (now : Int) (h : should_set_cookie iface s = true) :
    fetchone (save_session iface store s resp now true).store s.sid
      = some ⟨s.sid, dumps s.data,
          .dt ⟨if s.permanent then now + iface.max_age else now + 86400, false⟩⟩ := by
  have hf := fetchone_save iface store s resp now h
  simpa [saveExpiry] using hf

/-- Claim C6, witness: a permanent session saved at time 100 is stored with
expiry `100 + 2678400` (31 days later). -/
theorem save_session_expiry_policy_witness :
    fetchone (save_session deployedIface [] ⟨[("a", JsonVal.num 1)], "sid1", true, true⟩
        ⟨[], []⟩ 100 true).store "sid1"
      = some ⟨"sid1", dumps [("a", JsonVal.num 1)],
          .dt ⟨if true then 100 + deployedIface.max_age else 100 + 86400, false⟩⟩ :=
  save_session_expiry_policy deployedIface [] ⟨[("a", JsonVal.num 1)], "sid1", true, true⟩
    ⟨[], []⟩ 100 rfl

/-- Claim C7: when the commit of the database write fails, the error
propagates (it is not swallowed), the durable store is unchanged, and no
cookie header is added to the response. -/
theorem save_session_commit_failure_propagates (iface : SessionIface)
    (store : List SessionRecord) (s : DatabaseSession) (resp : Response)
    (now : Int) (h : should_set_cookie iface s = true) :
    save_session iface store s resp now false
      = ⟨store, resp, some DbErr.commitFailed⟩ := by
  simp [save_session, h]

/-- Claim C7, witness: a concrete failing commit leaves store and response
untouched and surfaces the error. -/
theorem save_session_commit_failure_propagates_witness :
    save_session deployedIface [] ⟨[("a", JsonVal.num 1)], "sid1", true, true⟩
      ⟨[], []⟩ 100 false
      = ⟨[], ⟨[], []⟩, some DbErr.commitFailed⟩ :=
  save_session_commit_failure_propagates deployedIface []
    ⟨[("a", JsonVal.num 1)], "sid1", true, true⟩ ⟨[], []⟩ 100 rfl

/-- Claim C5: upsert invariant — starting from a store with at most one row
per identifier, `save_session` preserves the invariant, and saving the same
identifier twice with different data leaves exactly one row for that
identifier, holding the latest data and expiry together. -/
theorem save_session_upsert_once (iface : SessionIface)
    (store : List SessionRecord) (s1 s2 : DatabaseSession)
    (resp1 resp2 : Response) (now1 now2 : Int) (commitOk : Bool)
    (hinv : atMostOne store)
    (hsid : s2.sid = s1.sid)
    (h1 : should_set_cookie iface s1 = true)
    (h2 : should_set_cookie iface s2 = true) :
    atMostOne (save_session iface store s1 resp1 now1 commitOk).store ∧
    rowsFor (save_session iface (save_session iface store s1 resp1 now1 true).store
        s2 resp2 now2 true).store s1.sid
      = [⟨s1.sid, dumps s2.data, .dt ⟨saveExpiry iface s2 now2, false⟩⟩] := by
  refine ⟨atMostOne_save iface store s1 resp1 now1 commitOk hinv, ?_⟩
  have hinv1 : atMostOne (save_session iface store s1 resp1 now1 true).store :=
    atMostOne_save iface store s1 resp1 now1 true hinv
  have h := rowsFor_save iface (save_session iface store s1 resp1 now1 true).store
    s2 resp2 now2 hinv1 h2
  rw [hsid] at h
  exact h

/-- Claim C5, witness: two saves of the same identifier with different data
on an initially empty store leave exactly one row with the latest data. -/
theorem save_session_upsert_once_witness :
    atMostOne (save_session deployedIface [] ⟨[("x", JsonVal.num 0)], "dup", true, true⟩
      ⟨[], []⟩ 0 true).store ∧
    rowsFor (save_session deployedIface
        (save_session deployedIface [] ⟨[("x", JsonVal.num 0)], "dup", true, true⟩
          ⟨[], []⟩ 0 true).store
        ⟨[("y", JsonVal.num 1)], "dup", true, true⟩ ⟨[], []⟩ 10 true).store "dup"
      = [⟨"dup", dumps [("y", JsonVal.num 1)],
          .dt ⟨saveExpiry deployedIface ⟨[("y", JsonVal.num 1)], "dup", true, true⟩ 10, false⟩⟩] :=
  save_session_upsert_once deployedIface [] ⟨[("x", JsonVal.num 0)], "dup", true, true⟩
    ⟨[("y", JsonVal.num 1)], "dup", true, true⟩ ⟨[], []⟩ ⟨[], []⟩ 0 10 true
    (fun sid => by simp [rowsFor]) rfl rfl rfl

/-- Claim C8: CORS decoration — when the allow-origin header is absent and
the request's `Origin` is allow-listed, both hooks add the five CORS
headers; a non-allow-listed or absent `Origin` adds nothing; and when the
allow-origin header is already present, `after_request` injects no
duplicates. -/
theorem cors_decoration (resp : Response) (o : String) :
    (hasHeader resp "Access-Control-Allow-Origin" = false → o ∈ allowed_origins →
      (after_request (some o) resp).headers = resp.headers ++ corsHeaders o) ∧
    (o ∉ allowed_origins → after_request (some o) resp = resp) ∧
    (after_request none resp = resp) ∧
    (hasHeader resp "Access-Control-Allow-Origin" = true → after_request (some o) resp = resp) ∧
    (o ∈ allowed_origins → (handle_options (some o) resp).headers = resp.headers ++ corsHeaders o) ∧
    (o ∉ allowed_origins → handle_options (some o) resp = resp) := by
  refine ⟨?_, ?_, ?_, ?_, ?_, ?_⟩
  · intro habs hmem
    simp [after_request, habs, hmem]
  · intro hmem
    by_cases habs : hasHeader resp "Access-Control-Allow-Origin" <;>
      simp [after_request, habs, hmem]
  · by_cases habs : hasHeader resp "Access-Control-Allow-Origin" <;>
      simp [after_request, habs]
  · intro hpres
    simp [after_request, hpres]
  · intro hmem
    simp [handle_options, hmem]
  · intro hmem
    simp [handle_options, hmem]

/-- Claim C8, witness: the allow-listed origin `http://localhost:5173` gets
the five headers from both hooks on a bare response, while
`http://evil.example` gets none. -/
theorem cors_decoration_witness :
    ((after_request (some "http://localhost:5173") ⟨[], []⟩).headers
      = [] ++ corsHeaders "http://localhost:5173") ∧
    (after_request (some "http://evil.example") ⟨[], []⟩ = ⟨[], []⟩) ∧
    ((handle_options (some "http://localhost:5173") ⟨[], []⟩).headers
      = [] ++ corsHeaders "http://localhost:5173") ∧
    (handle_options (some "http://evil.example") ⟨[], []⟩ = ⟨[], []⟩) :=
  ⟨(cors_decoration ⟨[], []⟩ "http://localhost:5173").1 rfl (by decide),
   (cors_decoration ⟨[], []⟩ "http://evil.example").2.1 (by decide),
   (cors_decoration ⟨[], []⟩ "http://localhost:5173").2.2.2.2.1 (by decide),
   (cors_decoration ⟨[], []⟩ "http://evil.example").2.2.2.2.2 (by decide)⟩

/-- Claim C9: a request carrying no session cookie (absent, or the empty
string, which Python's truthiness also treats as absent) resolves to a
session with a freshly generated non-empty identifier and `modified = false`. -/
theorem open_session_no_cookie_fresh_sid (iface : SessionIface)
    (store : List SessionRecord) (cookieSid : Option String) (now : Int) (r : Nat)
    (h : cookieSid = none ∨ cookieSid = some "") :
    open_session iface store cookieSid now r
      = .ok ⟨[], generate_sid r, iface.permanent, false⟩
      ∧ generate_sid r ≠ "" := by
  constructor
  · rcases h with h | h <;> subst h <;> rfl
  · exact generate_sid_ne_empty r

/-- Claim C9, witness: a concrete cookie-less request yields the freshly
generated identifier, which is non-empty. -/
theorem open_session_no_cookie_fresh_sid_witness :
    (open_session deployedIface [] none 0 0
      = .ok ⟨[], generate_sid 0, deployedIface.permanent, false⟩)
      ∧ generate_sid 0 ≠ "" :=
  open_session_no_cookie_fresh_sid deployedIface [] none 0 0 (Or.inl rfl)

/-- Claim C10: every session `open_session` returns carries the interface's
statically configured permanence flag, regardless of the stored record:
the flag is never persisted or restored. -/
theorem open_session_permanent_from_config (iface : SessionIface)
    (store : List SessionRecord) (cookieSid : Option String) (now : Int)
    (r : Nat) (s : DatabaseSession)
    (h : open_session iface store cookieSid now r = .ok s) :
    s.permanent = iface.permanent := by
  simp only [open_session] at h
  repeat' split at h
  all_goals first
    | (cases h; rfl)
    | exact Except.noConfusion h

/-- Claim C10, witness: a concrete resolution returns the configured flag. -/
theorem open_session_permanent_from_config_witness :
    (DatabaseSession.mk [] "x" true false).permanent = deployedIface.permanent :=
  open_session_permanent_from_config deployedIface [] (some "x") 0 0
    ⟨[], "x", true, false⟩ (by rfl)
